import Mathlib

/-!
Verification of the ai-chat backend core (model router, resilient transport,
canvas state machine, context truncation, archive extractor) against its
natural-language specification.  All definitions below are shallow embeddings
of the JavaScript source in `backend/modelClients.js`, `backend/modelConfig.js`
and `backend/server.js`.  JavaScript strings are modelled as Lean `String`s
at character granularity; the empty string plays the role of a falsy string.
-/

namespace AiChat

/-! ## Data model (backend/modelConfig.js, backend/modelClients.js) -/

/-- Static capability flags of one model registry entry
(`capabilities` object in `backend/modelConfig.js`). -/
structure Capabilities where
  reasoning : Bool
  webSearch : Bool
  vision : Bool
  canvas : Bool
deriving DecidableEq, Repr

/-- One model registry entry (`MODEL_MAP` value in `backend/modelConfig.js`). -/
structure ModelConfig where
  provider : String
  model : String
  capabilities : Capabilities
deriving DecidableEq, Repr

/-- The static model registry `MODEL_MAP` of `backend/modelConfig.js`,
as a lookup function (JS object indexing returns `undefined` = `none`
for unknown keys). -/
def MODEL_MAP (id : String) : Option ModelConfig :=
  if id = "gpt-5" then
    some ⟨"openai", "gpt-5", ⟨true, true, true, true⟩⟩
  else if id = "gpt-5.1" then
    some ⟨"openai", "gpt-5.1", ⟨true, true, true, true⟩⟩
  else if id = "gpt-5.1-codex" then
    some ⟨"openai", "gpt-5.1-codex", ⟨true, true, false, true⟩⟩
  else if id = "gpt-5-mini" then
    some ⟨"openai", "gpt-5-mini", ⟨false, true, true, true⟩⟩
  else if id = "deepseek-chat" then
    some ⟨"deepseek", "deepseek-chat", ⟨false, false, false, false⟩⟩
  else if id = "deepseek-reasoner" then
    some ⟨"deepseek", "deepseek-reasoner", ⟨true, false, false, false⟩⟩
  else if id = "gemini-1.5-pro" then
    some ⟨"gemini", "gemini-1.5-pro", ⟨false, false, true, false⟩⟩
  else if id = "gemini-3-pro-preview" then
    some ⟨"gemini", "gemini-3-pro-preview", ⟨false, false, true, false⟩⟩
  else
    none

/-- Model resolution of the message handler, `backend/server.js` lines 368-369:
`const config = MODEL_MAP[modelId] || MODEL_MAP['gpt-5-mini'];`
`if (!config) throw new HttpError(400, ...)`.
The error value carries the HTTP status and message of the `HttpError`. -/
def resolveModel (modelId : String) : Except (Nat × String) ModelConfig :=
  match (MODEL_MAP modelId).orElse (fun _ => MODEL_MAP "gpt-5-mini") with
  | some config => .ok config
  | none => .error (400, "未知模型 ID: " ++ modelId)

/-! ## Canonical messages and provider results (backend/modelClients.js) -/

/-- A role-tagged chat message as sent to providers. -/
structure ChatMsg where
  role : String
  content : String
deriving DecidableEq, Repr

/-- A canvas block of a provider result (`{ title, content }`). -/
structure CanvasData where
  title : String
  content : String
deriving DecidableEq, Repr

/-- A structured provider result `{ text, canvas }` as produced by
`extractTextAndCanvas` for the OpenAI adapter. -/
structure ObjResult where
  text : String
  canvas : Option CanvasData
deriving DecidableEq, Repr

/-- The raw value a provider call resolves to: the OpenAI adapter yields an
object `{ text, canvas }`, DeepSeek/Gemini yield a plain string, and
`missing` models a JS `undefined` result value. -/
inductive RawResult where
  | str (s : String)
  | obj (o : ObjResult)
  | missing
deriving DecidableEq, Repr

/-- The request dispatched to a provider adapter by `callModelWithConfig`:
OpenAI receives the effective `depthMode`, `webSearch` and `outputTarget`;
DeepSeek and Gemini receive only the effective `depthMode`. -/
inductive ProviderRequest where
  | openai (model : String) (messages : List ChatMsg)
      (depthMode webSearch : Bool) (outputTarget : String)
  | deepseek (model : String) (messages : List ChatMsg) (depthMode : Bool)
  | gemini (model : String) (messages : List ChatMsg) (depthMode : Bool)
deriving DecidableEq, Repr

/-- Caller options of `callModelWithConfig` (`options` parameter).  String
fields use `""` for a missing/falsy value, matching `options.outputTarget ||
"chat"` and `options.canvasTitle || "画布"`. -/
structure CallOptions where
  depthMode : Bool
  webSearch : Bool
  outputTarget : String
  canvasTitle : String
deriving DecidableEq, Repr

/-- Effective reasoning flag, `backend/modelClients.js` line 123:
`const depthMode = !!(options.depthMode && capabilities?.reasoning === true)`. -/
def effDepthMode (config : ModelConfig) (options : CallOptions) : Bool :=
  options.depthMode && config.capabilities.reasoning

/-- Effective web-search flag, `backend/modelClients.js` line 124:
`const webSearch = !!(options.webSearch && capabilities?.webSearch === true)`. -/
def effWebSearch (config : ModelConfig) (options : CallOptions) : Bool :=
  options.webSearch && config.capabilities.webSearch

/-- Effective output target, line 125: `options.outputTarget || "chat"`. -/
def effOutputTarget (options : CallOptions) : String :=
  if options.outputTarget = "" then "chat" else options.outputTarget

/-- Effective canvas title, line 126: `options.canvasTitle || "画布"`. -/
def effCanvasTitle (options : CallOptions) : String :=
  if options.canvasTitle = "" then "画布" else options.canvasTitle

/-- The apology string of the soft-failure path, line 161. -/
def MODEL_ERROR_MSG : String := "⚠️ 当前模型暂时不可用，请稍后重试或切换模型。"

/-- Capability-driven router entry point, `backend/modelClients.js`
lines 120-167 (`callModelWithConfig`).  The outbound network call is
abstracted as `providerRaw`, mapping the dispatched request to either the
parsed raw result or the thrown error message; the surrounding `try`/`catch`
turns every failure (including the unknown-provider throw) into the
soft-failure value, so the function is total. -/
def callModelWithConfig (config : ModelConfig) (messages : List ChatMsg)
    (options : CallOptions)
    (providerRaw : ProviderRequest → Except String RawResult) : RawResult :=
  let depthMode := effDepthMode config options
  let webSearch := effWebSearch config options
  let outputTarget := effOutputTarget options
  let canvasTitle := effCanvasTitle options
  let rawE : Except String RawResult :=
    if config.provider = "openai" then
      providerRaw (.openai config.model messages depthMode webSearch outputTarget)
    else if config.provider = "deepseek" then
      providerRaw (.deepseek config.model messages depthMode)
    else if config.provider = "gemini" then
      providerRaw (.gemini config.model messages depthMode)
    else
      .error ("未知 provider: " ++ config.provider)
  match rawE with
  | .error _ =>
      if outputTarget = "canvas" then
        .obj ⟨"", some ⟨canvasTitle, MODEL_ERROR_MSG⟩⟩
      else
        .str MODEL_ERROR_MSG
  | .ok raw =>
      if outputTarget = "canvas" then
        match raw with
        | .str s => .obj ⟨"", some ⟨canvasTitle, s⟩⟩
        | .obj o =>
            match o.canvas with
            | some c =>
                if c.content ≠ "" || c.title ≠ "" then .obj o
                else .obj ⟨"", some ⟨canvasTitle, o.text⟩⟩
            | none => .obj ⟨"", some ⟨canvasTitle, o.text⟩⟩
        | .missing => .obj ⟨"", some ⟨canvasTitle, ""⟩⟩
      else
        raw

/-! ## OpenAI request body construction (backend/modelClients.js lines 171-237) -/

/-- The fixed canvas-mode system hint prepended by `callOpenAI`. -/
def CANVAS_SYSTEM_HINT : String :=
  "\n当你要输出以下类型内容时，请使用【Canvas 画布】而不是普通回复：\n- 代码（任何语言）\n- 教程 / 文档 / 方案说明\n- 表格 / 清单 / 长文本（>30 行）\n- 用户明确要求“整理”“生成文件”“写成文档”的内容\n\nCanvas 要求：\n- 有明确标题\n- 内容结构清晰\n- 只放最终结果，不要聊天语气\n- 内容必须完整、可复制、可保存为文件\n"

/-- The JSON body `callOpenAI` posts to the Responses API: `reasoningEffort`
is `some "medium"` exactly when the body carries a `reasoning` field, and
`tools` is `some "web_search"` exactly when the body carries the web-search
tool. -/
structure OpenAIBody where
  model : String
  input : String
  reasoningEffort : Option String
  tools : Option String
deriving DecidableEq, Repr

/-- Body construction of `callOpenAI` (lines 191-216): prepend the canvas
hint in canvas mode, join messages as `role: content` lines, include
`reasoning` iff `depthMode`, include the web-search tool iff
`webSearch === true && process.env.OPENAI_WEB_SEARCH === "1"`
(`envWebSearchOn` models the environment check). -/
def callOpenAIBody (model : String) (messages : List ChatMsg)
    (depthMode webSearch : Bool) (outputTarget : String)
    (envWebSearchOn : Bool) : OpenAIBody :=
  let finalMessages :=
    if outputTarget = "canvas" then
      ⟨"system", CANVAS_SYSTEM_HINT⟩ :: messages
    else messages
  let inputText :=
    String.intercalate "\n" (finalMessages.map (fun m => m.role ++ ": " ++ m.content))
  { model := model
    input := inputText
    reasoningEffort := if depthMode then some "medium" else none
    tools := if webSearch && envWebSearchOn then some "web_search" else none }

/-! ## Context truncation (backend/server.js lines 97-102) -/

/-- Character-level embedding of JS `s.slice(k)`: the suffix of `s` starting
at character index `k`. -/
def sliceFrom (s : String) (k : Nat) : String := ⟨s.data.drop k⟩

/-- The truncation notice string interpolated at `backend/server.js`
line 101: `...(为节省上下文，已截断，共 N 字符)\n` where `N` is the original
length. -/
def truncNotice (s : String) : String :=
  "...(为节省上下文，已截断，共 " ++ toString s.length ++ " 字符)\n"

/-- `truncateForModel` of `backend/server.js` lines 97-102: falsy input
yields `''`; input within the budget is returned unchanged; longer input is
replaced by the notice followed by its last `maxChars` characters
(`s.slice(s.length - maxChars)`). -/
def truncateForModel (str : String) (maxChars : Nat) : String :=
  if str = "" then ""
  else if str.length ≤ maxChars then str
  else truncNotice str ++ sliceFrom str (str.length - maxChars)

/-! ## Canvas state machine (backend/server.js lines 456-527) -/

/-- A persisted canvas document `{ id, title, content, updatedAt }`. -/
structure CanvasObj where
  id : String
  title : String
  content : String
  updatedAt : String
deriving DecidableEq, Repr

/-- Character-level embedding of JS `String.prototype.trim`: strip
whitespace characters from both ends. -/
def jsTrim (s : String) : String :=
  ⟨(((s.data.dropWhile Char.isWhitespace).reverse.dropWhile
      Char.isWhitespace).reverse)⟩

/-- Chunk selection of `backend/server.js` line 517:
`(canvas && canvas.content) ? String(canvas.content) : String(replyText || '')`. -/
def canvasChunk (canvas : Option CanvasData) (replyText : String) : String :=
  match canvas with
  | some c => if c.content ≠ "" then c.content else replyText
  | none => replyText

/-- One canvas-mode turn of the message handler, `backend/server.js`
lines 456-527, starting from the most recent stored canvas:
`priorCanvas` is the result of the history scan (lines 457-466, which only
runs when no `new` intent is present), `resultText`/`resultCanvas` are the
router result fields, `freshId` models `crypto.randomUUID()` and `nowIso`
models `new Date().toISOString()`. -/
def canvasTurn (priorCanvas : Option CanvasObj) (wantNewCanvas : Bool)
    (resultText : String) (resultCanvas : Option CanvasData)
    (freshId nowIso : String) : CanvasObj :=
  -- line 458: the history scan for `existingCanvas` runs only when
  -- `target === 'canvas' && !wantNewCanvas`
  let existingCanvas := if wantNewCanvas then none else priorCanvas
  -- line 468: `(existingCanvas && existingCanvas.title) ? ... : '画布'`
  let canvasTitle :=
    match existingCanvas with
    | some ec => if ec.title ≠ "" then ec.title else "画布"
    | none => "画布"
  -- line 517
  let chunk := canvasChunk resultCanvas resultText
  -- line 518: `(!wantNewCanvas && existingCanvas && existingCanvas.content)
  -- ? String(existingCanvas.content) : ''`
  let base :=
    match existingCanvas with
    | some ec => if !wantNewCanvas && ec.content ≠ "" then ec.content else ""
    | none => ""
  -- line 520: `base ? (base + '\n\n' + chunk).trim() : chunk.trim()`
  let merged := if base ≠ "" then jsTrim (base ++ "\n\n" ++ chunk) else jsTrim chunk
  -- lines 522-527
  let id :=
    match existingCanvas with
    | some ec => if ec.id ≠ "" && !wantNewCanvas then ec.id else freshId
    | none => freshId
  ⟨id, canvasTitle, merged, nowIso⟩

/-! ## Resilient transport (backend/modelClients.js lines 56-116) -/

/-- Retry policy of `fetchWithRetry` (`cfg` parameter with its defaults). -/
structure RetryCfg where
  timeoutMs : Nat
  retries : Nat
  baseDelayMs : Nat
  maxDelayMs : Nat
deriving DecidableEq, Repr

/-- The outcome of one fetch attempt: an HTTP response with a status code,
or a thrown transport error carrying its message. -/
inductive AttemptResult where
  | resp (status : Nat)
  | err (msg : String)
deriving DecidableEq, Repr

/-- `isRetryableStatus` (line 61): `status === 429 || (status >= 500 &&
status <= 599)`. -/
def isRetryableStatus (status : Nat) : Bool :=
  status == 429 || (500 ≤ status && status ≤ 599)

/-- `isRetryableError` (lines 65-74): the error message contains one of the
retryable markers. -/
def isRetryableError (msg : String) : Bool :=
  (msg.splitOn "AbortError").length > 1 ||
  (msg.splitOn "ETIMEDOUT").length > 1 ||
  (msg.splitOn "ECONNRESET").length > 1 ||
  (msg.splitOn "ENOTFOUND").length > 1 ||
  (msg.splitOn "EAI_AGAIN").length > 1

/-- Whether an attempt outcome is classified retryable by the transport. -/
def retryableOutcome : AttemptResult → Bool
  | .resp status => isRetryableStatus status
  | .err msg => isRetryableError msg

/-- The backoff delay computed before a retry of attempt number `attempt`
(lines 96 and 105): `Math.min(maxDelayMs, baseDelayMs * Math.pow(2, attempt))`. -/
def backoffDelay (cfg : RetryCfg) (attempt : Nat) : Nat :=
  min cfg.maxDelayMs (cfg.baseDelayMs * 2 ^ attempt)

/-- The retry loop of `fetchWithRetry` (lines 87-113) from attempt number
`attempt` on.  `fetchFn n` is the outcome of the `fetch` of attempt `n`.
Returns the value the call settles on (`.ok status` for a returned response,
`.error msg` for a thrown error) together with the list of backoff delays
slept, in order; the number of attempts made is one more than the number of
delays. -/
def fetchLoop (fetchFn : Nat → AttemptResult) (cfg : RetryCfg)
    (attempt : Nat) : Except String Nat × List Nat :=
  match fetchFn attempt with
  | .resp status =>
      if isRetryableStatus status && attempt < cfg.retries then
        let r := fetchLoop fetchFn cfg (attempt + 1)
        (r.1, backoffDelay cfg attempt :: r.2)
      else
        (.ok status, [])
  | .err msg =>
      if attempt < cfg.retries && isRetryableError msg then
        let r := fetchLoop fetchFn cfg (attempt + 1)
        (r.1, backoffDelay cfg attempt :: r.2)
      else
        (.error msg, [])
termination_by cfg.retries - attempt
decreasing_by
  all_goals
    simp only [Bool.and_eq_true, decide_eq_true_eq] at *
    omega

/-- `fetchWithRetry` (lines 77-116): run the retry loop from attempt 0. -/
def fetchWithRetry (fetchFn : Nat → AttemptResult) (cfg : RetryCfg) :
    Except String Nat × List Nat :=
  fetchLoop fetchFn cfg 0

/-! ## Archive/document extractor (backend/server.js lines 138-205) -/

/-- `MAX_ZIP_FILES` (line 138). -/
def MAX_ZIP_FILES : Nat := 200

/-- `MAX_ZIP_TOTAL_BYTES` (line 139): 20 MiB. -/
def MAX_ZIP_TOTAL_BYTES : Nat := 20 * 1024 * 1024

/-- The shared per-tree quota state (`zipState = { files: 0, bytes: 0 }`). -/
structure ZipState where
  files : Nat
  bytes : Nat
deriving DecidableEq, Repr

/-- An uploaded artifact, classified the way `analyzeFileBuffer` dispatches
on the file extension.  `name` is the file name / zip entry path, `size` the
byte length of its buffer (`buffer.length`).  Parse outcomes of the external
libraries are part of the node: `zip` carries its `File`-type entries in
directory order (a malformed archive is `badZip`, where `unzipper.Open.buffer`
throws `errMsg`); `pdfFile`/`xlsxFile` carry the parse result of
`pdf(buffer)` / first-sheet serialization (or the thrown message);
`imageFile` carries the OpenAI vision outcome; `otherFile` carries the
best-effort UTF-8 decode (`none` when decoding throws). -/
inductive FileNode where
  | zip (name : String) (size : Nat) (entries : List FileNode)
  | badZip (name : String) (size : Nat) (errMsg : String)
  | textFile (name : String) (size : Nat) (content : String)
  | pdfFile (name : String) (size : Nat) (parsed : Except String String)
  | xlsxFile (name : String) (size : Nat) (rows : Except String String)
  | imageFile (name : String) (size : Nat) (vision : Except String String)
  | otherFile (name : String) (size : Nat) (decoded : Option String)

/-- The file name / entry path of a node. -/
def FileNode.name : FileNode → String
  | .zip n _ _ => n
  | .badZip n _ _ => n
  | .textFile n _ _ => n
  | .pdfFile n _ _ => n
  | .xlsxFile n _ _ => n
  | .imageFile n _ _ => n
  | .otherFile n _ _ => n

/-- The buffer length of a node (`childBuf.length` for a zip entry). -/
def FileNode.size : FileNode → Nat
  | .zip _ s _ => s
  | .badZip _ s _ => s
  | .textFile _ s _ => s
  | .pdfFile _ s _ => s
  | .xlsxFile _ s _ => s
  | .imageFile _ s _ => s
  | .otherFile _ s _ => s

/-- Diagnostic appended when the entry-count quota is crossed (line 155). -/
def zipFilesDiag : String :=
  "\n[ZIP 文件数超过限制（>" ++ toString MAX_ZIP_FILES ++ "），停止解析]\n"

/-- Diagnostic appended when the byte quota is crossed (line 162). -/
def zipBytesDiag : String :=
  "\n[ZIP 解压总字节超过限制（>" ++ toString MAX_ZIP_TOTAL_BYTES ++ "），停止解析]\n"

mutual

/-- `analyzeFileBuffer(fileName, buffer, depth, zipState)` of
`backend/server.js` lines 141-205.  Returns `.error` exactly where the JS
function lets an exception escape (malformed zip, failed `pdf` parse,
failed `xlsx` read); otherwise `.ok (out, zipState, c, b)` where `out` is
the produced text and `zipState` the updated shared quota state.  The last
two components are ghost instrumentation, not present in the source: `c`
counts the zip entries this call expanded (the entries for which the
`out += await analyzeFileBuffer(...)` line ran, summed over all nesting
levels) and `b` sums the buffer sizes of those expanded entries. -/
def analyzeFileBuffer (node : FileNode) (depth : Nat) (st : ZipState) :
    Except String (String × ZipState × Nat × Nat) :=
  if depth > 3 then
    .ok ("\n[深度超过限制，略过: " ++ node.name ++ "]\n", st, 0, 0)
  else
    match node with
    | .zip name _ entries =>
        analyzeZipEntries entries depth st ("\n【ZIP 压缩包: " ++ name ++ "】\n")
    | .badZip _ _ errMsg => .error errMsg
    | .textFile name _ content =>
        .ok ("\n[文本文件: " ++ name ++ "]\n" ++ content ++ "\n", st, 0, 0)
    | .pdfFile name _ parsed =>
        match parsed with
        | .ok t => .ok ("\n[PDF 文件: " ++ name ++ "]\n" ++ t ++ "\n", st, 0, 0)
        | .error e => .error e
    | .xlsxFile name _ rows =>
        match rows with
        | .ok t => .ok ("\n[Excel 文件: " ++ name ++ "]\n" ++ t ++ "\n", st, 0, 0)
        | .error e => .error e
    | .imageFile name _ vision =>
        match vision with
        | .ok v => .ok ("\n[图片文件: " ++ name ++ "]\n" ++ v ++ "\n", st, 0, 0)
        | .error e =>
            .ok ("\n[图片文件: " ++ name ++ "]\n[图片解析失败：" ++ e ++ "]\n",
              st, 0, 0)
    | .otherFile name _ decoded =>
        match decoded with
        | some t => .ok ("\n[文件: " ++ name ++ "]\n" ++ t ++ "\n", st, 0, 0)
        | none => .ok ("\n[文件: " ++ name ++ "]\n[二进制内容，未解析]\n", st, 0, 0)

/-- The `for (const f of directory.files)` loop of the `.zip` branch
(lines 150-168), over the remaining `File`-type entries, accumulating into
`out`.  Each considered entry first bumps the entry counter (skip with a
diagnostic and `break` past the quota), then charges its buffer size (skip
with a diagnostic and `break` past the quota), then is expanded with a
path header via the recursive call. -/
def analyzeZipEntries (entries : List FileNode) (depth : Nat) (st : ZipState)
    (out : String) : Except String (String × ZipState × Nat × Nat) :=
  match entries with
  | [] => .ok (out, st, 0, 0)
  | f :: rest =>
      let st1 : ZipState := ⟨st.files + 1, st.bytes⟩
      if st1.files > MAX_ZIP_FILES then
        .ok (out ++ zipFilesDiag, st1, 0, 0)
      else
        let st2 : ZipState := ⟨st1.files, st1.bytes + f.size⟩
        if st2.bytes > MAX_ZIP_TOTAL_BYTES then
          .ok (out ++ zipBytesDiag, st2, 0, 0)
        else
          match analyzeFileBuffer f (depth + 1) st2 with
          | .error e => .error e
          | .ok (sub, st3, c1, b1) =>
              match analyzeZipEntries rest depth st3
                  (out ++ "\n---\n[" ++ f.name ++ "]\n" ++ sub) with
              | .error e => .error e
              | .ok (outF, st4, c2, b2) =>
                  .ok (outF, st4, 1 + c1 + c2, f.size + b1 + b2)

end

/-! ## Helper lemmas -/

/-- In canvas mode, every branch of `callModelWithConfig` (success of any
raw shape, and failure) returns an object whose `canvas` field is set. -/
theorem callModel_canvas_isSome (config : ModelConfig) (messages : List ChatMsg)
    (options : CallOptions) (providerRaw : ProviderRequest → Except String RawResult)
    (h : effOutputTarget options = "canvas") :
    ∃ o c, callModelWithConfig config messages options providerRaw = .obj o ∧
      o.canvas = some c := by
  simp only [callModelWithConfig, h]
  repeat' split
  all_goals first
    | exact ⟨_, _, rfl, by first | rfl | assumption⟩
    | simp_all

/-! ## Claim C1 -/

/-- Claim C1, counterexample to the claim as stated: the model
`deepseek-chat` has `canvas: false` in the static registry, yet a
canvas-mode call for it produces a canvas-mode result (the plain-string
provider output is wrapped into a canvas), so a canvas-mode result is not
restricted to models whose canvas capability flag is true. -/
theorem c1_counterexample :
    MODEL_MAP "deepseek-chat" =
      some ⟨"deepseek", "deepseek-chat", ⟨false, false, false, false⟩⟩ ∧
    (Capabilities.mk false false false false).canvas = false ∧
    callModelWithConfig ⟨"deepseek", "deepseek-chat", ⟨false, false, false, false⟩⟩
        [] ⟨false, true, "canvas", ""⟩ (fun _ => .ok (.str "hi")) =
      .obj ⟨"", some ⟨"画布", "hi"⟩⟩ := by
  refine ⟨by decide, rfl, by decide⟩

/-- Claim C1 (amended): the effective reasoning and web-search flags equal
caller intent AND static capability (and the OpenAI request body carries the
`reasoning` field iff the effective reasoning flag is set, and the
web-search tool only if the effective web-search flag is set), but a
canvas-mode result is produced for every canvas-mode call regardless of the
model's canvas capability flag. -/
theorem c1_claim :
    (∀ config options, effDepthMode config options = true ↔
        (options.depthMode = true ∧ config.capabilities.reasoning = true)) ∧
    (∀ config options, effWebSearch config options = true ↔
        (options.webSearch = true ∧ config.capabilities.webSearch = true)) ∧
    (∀ model messages d w t env,
        ((callOpenAIBody model messages d w t env).reasoningEffort.isSome ↔
          d = true) ∧
        ((callOpenAIBody model messages d w t env).tools.isSome ↔
          (w = true ∧ env = true))) ∧
    (∀ config messages options providerRaw, effOutputTarget options = "canvas" →
        ∃ o c, callModelWithConfig config messages options providerRaw = .obj o ∧
          o.canvas = some c) := by
  refine ⟨?_, ?_, ?_, ?_⟩
  · intro config options
    simp [effDepthMode]
  · intro config options
    simp [effWebSearch]
  · intro model messages d w t env
    constructor
    · simp [callOpenAIBody]
    · simp [callOpenAIBody]
  · intro config messages options providerRaw h
    exact callModel_canvas_isSome config messages options providerRaw h

/-- Claim C1, witness: the fully-capable `gpt-5` configuration with a
depth-mode caller yields an effective reasoning flag, and a canvas-mode call
for the canvas-incapable `deepseek-chat` configuration still yields a canvas
object. -/
theorem c1_witness :
    effDepthMode ⟨"openai", "gpt-5", ⟨true, true, true, true⟩⟩
      ⟨true, true, "", ""⟩ = true ∧
    (∃ o c, callModelWithConfig
        ⟨"deepseek", "deepseek-chat", ⟨false, false, false, false⟩⟩ []
        ⟨false, true, "canvas", ""⟩ (fun _ => .ok .missing) = .obj o ∧
      o.canvas = some c) :=
  ⟨(c1_claim.1 _ _).mpr ⟨rfl, rfl⟩,
   c1_claim.2.2.2 _ _ _ _ (by decide)⟩

/-! ## Claim C2 -/

/-- Claim C2, counterexample to the claim as stated: the unknown model id
`"not-a-model"` is not rejected; the handler silently substitutes the
default `gpt-5-mini` configuration for it. -/
theorem c2_counterexample :
    MODEL_MAP "not-a-model" = none ∧
    resolveModel "not-a-model" =
      .ok ⟨"openai", "gpt-5-mini", ⟨false, true, true, true⟩⟩ := by
  refine ⟨by decide, by rfl⟩

/-- Claim C2 (amended): model resolution never rejects: any model id
found in the registry resolves to its entry, and an unknown model id is
silently substituted with the default `gpt-5-mini` configuration; the
400-error path is dead because the default entry always exists. -/
theorem c2_claim : ∀ modelId : String,
    (∃ c, resolveModel modelId = .ok c) ∧
    (MODEL_MAP modelId = none →
      resolveModel modelId =
        .ok ⟨"openai", "gpt-5-mini", ⟨false, true, true, true⟩⟩) ∧
    (∀ c, MODEL_MAP modelId = some c → resolveModel modelId = .ok c) := by
  intro modelId
  refine ⟨?_, ?_, ?_⟩
  · cases h : MODEL_MAP modelId with
    | some c => exact ⟨c, by unfold resolveModel; rw [h]; rfl⟩
    | none => exact ⟨_, by unfold resolveModel; rw [h]; rfl⟩
  · intro h
    unfold resolveModel
    rw [h]
    rfl
  · intro c h
    unfold resolveModel
    rw [h]
    rfl

/-- Claim C2, witness: the unknown id `"zzz"` resolves, to the default
`gpt-5-mini` configuration. -/
theorem c2_witness :
    MODEL_MAP "zzz" = none ∧
    resolveModel "zzz" =
      .ok ⟨"openai", "gpt-5-mini", ⟨false, true, true, true⟩⟩ :=
  ⟨by decide, (c2_claim "zzz").2.1 (by decide)⟩

/-! ## Claim C5 -/

/-- Claim C5: on any adapter failure (every dispatched provider call throws,
which also covers an exhausted retry loop whose final error is rethrown),
`callModelWithConfig` returns the normalized soft-failure value instead of
propagating: the apology string for chat-mode turns, and an empty-text
result whose canvas carries the apology for canvas-mode turns — never a
hard failure. -/
theorem c5_claim : ∀ (config : ModelConfig) (messages : List ChatMsg)
    (options : CallOptions)
    (providerRaw : ProviderRequest → Except String RawResult) (e : String),
    (∀ req, providerRaw req = .error e) →
    callModelWithConfig config messages options providerRaw =
      (if effOutputTarget options = "canvas" then
        .obj ⟨"", some ⟨effCanvasTitle options, MODEL_ERROR_MSG⟩⟩
      else
        .str MODEL_ERROR_MSG) := by
  intro config messages options providerRaw e h
  simp only [callModelWithConfig, h]
  by_cases h1 : config.provider = "openai" <;>
    by_cases h2 : config.provider = "deepseek" <;>
      by_cases h3 : config.provider = "gemini" <;>
        simp [h1, h2, h3]

/-- Claim C5, witness: a canvas-mode turn whose provider call fails yields
the empty-text canvas apology. -/
theorem c5_witness :
    callModelWithConfig ⟨"gemini", "gemini-1.5-pro", ⟨false, false, true, false⟩⟩
        [] ⟨false, false, "canvas", ""⟩ (fun _ => .error "ECONNRESET") =
      .obj ⟨"", some ⟨"画布", MODEL_ERROR_MSG⟩⟩ := by
  have h := c5_claim ⟨"gemini", "gemini-1.5-pro", ⟨false, false, true, false⟩⟩
    [] ⟨false, false, "canvas", ""⟩ (fun _ => .error "ECONNRESET") "ECONNRESET"
    (fun _ => rfl)
  simpa using h

/-! ## Claim C10 -/

/-- Claim C10: every canvas-mode invocation of the router entry point
returns an object whose `canvas` field is set (with string title and
content by construction), for every provider raw shape — plain string,
object with or without a canvas block, missing — and also on failure; a
plain-string provider output is wrapped into the canvas content with the
text field left empty. -/
theorem c10_claim : ∀ (config : ModelConfig) (messages : List ChatMsg)
    (options : CallOptions)
    (providerRaw : ProviderRequest → Except String RawResult),
    options.outputTarget = "canvas" →
    (∃ o c, callModelWithConfig config messages options providerRaw = .obj o ∧
        o.canvas = some c) ∧
    (∀ s, (∀ req, providerRaw req = .ok (.str s)) →
        (config.provider = "openai" ∨ config.provider = "deepseek" ∨
          config.provider = "gemini") →
        callModelWithConfig config messages options providerRaw =
          .obj ⟨"", some ⟨effCanvasTitle options, s⟩⟩) := by
  intro config messages options providerRaw h
  have hEff : effOutputTarget options = "canvas" := by
    simp [effOutputTarget, h]
  constructor
  · exact callModel_canvas_isSome config messages options providerRaw hEff
  · intro s hs hp
    simp only [callModelWithConfig, hs, hEff]
    rcases hp with hp | hp | hp <;>
      by_cases h1 : config.provider = "openai" <;>
        by_cases h2 : config.provider = "deepseek" <;>
          simp_all

/-- Claim C10, witness: a canvas-mode call over a plain-string provider
result is wrapped into a canvas whose content is that string, with empty
text. -/
theorem c10_witness :
    callModelWithConfig ⟨"deepseek", "deepseek-chat", ⟨false, false, false, false⟩⟩
        [] ⟨false, false, "canvas", "我的画布"⟩ (fun _ => .ok (.str "正文")) =
      .obj ⟨"", some ⟨"我的画布", "正文"⟩⟩ := by
  have h := (c10_claim ⟨"deepseek", "deepseek-chat", ⟨false, false, false, false⟩⟩
    [] ⟨false, false, "canvas", "我的画布"⟩ (fun _ => .ok (.str "正文")) rfl).2
    "正文" (fun _ => rfl) (Or.inr (Or.inl rfl))
  simpa using h

/-! ## Claim C7 -/

/-- Claim C7, counterexample to the claim as stated: in a fresh-canvas turn
the code stores `chunk.trim()`, not the chunk itself, so for a model output
with a trailing newline the resulting content is not equal to the new
chunk. -/
theorem c7_counterexample :
    (canvasTurn none true "Y\n" none "fresh-id" "t0").content ≠ "Y\n" ∧
    (canvasTurn none true "Y\n" none "fresh-id" "t0").content = "Y" := by
  refine ⟨by decide, by decide⟩

/-- Claim C7 (amended): for a canvas-mode turn with an explicit new intent,
or with no prior canvas in the history, the resulting canvas takes the
freshly generated id (hence differs from any distinct prior id), the
default title `画布`, and its content is the new chunk only, trimmed of
surrounding whitespace. -/
theorem c7_claim : ∀ (priorCanvas : Option CanvasObj) (wantNewCanvas : Bool)
    (resultText : String) (resultCanvas : Option CanvasData)
    (freshId nowIso : String),
    (wantNewCanvas = true ∨ priorCanvas = none) →
    (canvasTurn priorCanvas wantNewCanvas resultText resultCanvas
        freshId nowIso).id = freshId ∧
    (canvasTurn priorCanvas wantNewCanvas resultText resultCanvas
        freshId nowIso).title = "画布" ∧
    (canvasTurn priorCanvas wantNewCanvas resultText resultCanvas
        freshId nowIso).content = jsTrim (canvasChunk resultCanvas resultText) ∧
    (∀ pc, priorCanvas = some pc → freshId ≠ pc.id →
      (canvasTurn priorCanvas wantNewCanvas resultText resultCanvas
        freshId nowIso).id ≠ pc.id) := by
  intro priorCanvas wantNewCanvas resultText resultCanvas freshId nowIso h
  rcases h with h | h
  · subst h
    refine ⟨by simp [canvasTurn], by simp [canvasTurn], by simp [canvasTurn], ?_⟩
    intro pc _ hne
    simpa [canvasTurn] using hne
  · subst h
    refine ⟨by simp [canvasTurn], by simp [canvasTurn], by simp [canvasTurn], ?_⟩
    intro pc hpc
    exact absurd hpc (by simp)

/-- Claim C7, witness: a new-intent canvas turn over model chunk `"Y"`
yields the fresh id, the default title, and content `"Y"`. -/
theorem c7_witness :
    (canvasTurn (some ⟨"old-id", "旧标题", "X", "t"⟩) true "chat text"
        (some ⟨"忽略", "Y"⟩) "new-id" "t0").id = "new-id" ∧
    (canvasTurn (some ⟨"old-id", "旧标题", "X", "t"⟩) true "chat text"
        (some ⟨"忽略", "Y"⟩) "new-id" "t0").title = "画布" ∧
    (canvasTurn (some ⟨"old-id", "旧标题", "X", "t"⟩) true "chat text"
        (some ⟨"忽略", "Y"⟩) "new-id" "t0").content =
      jsTrim (canvasChunk (some ⟨"忽略", "Y"⟩) "chat text") := by
  have h := c7_claim (some ⟨"old-id", "旧标题", "X", "t"⟩) true "chat text"
    (some ⟨"忽略", "Y"⟩) "new-id" "t0" (Or.inl rfl)
  exact ⟨h.1, h.2.1, h.2.2.1⟩

/-! ## Claim C8 -/

/-- Claim C8: for a canvas-mode turn without a new intent, over a prior
canvas with nonempty content, id and title, and model chunk `Y`, the
resulting content is the prior content, a blank-line separator, then `Y`,
trimmed of surrounding whitespace, and the id and title are preserved. -/
theorem c8_claim : ∀ (pc : CanvasObj) (resultText : String)
    (resultCanvas : Option CanvasData) (freshId nowIso : String),
    pc.content ≠ "" → pc.title ≠ "" → pc.id ≠ "" →
    (canvasTurn (some pc) false resultText resultCanvas freshId nowIso).content =
      jsTrim (pc.content ++ "\n\n" ++ canvasChunk resultCanvas resultText) ∧
    (canvasTurn (some pc) false resultText resultCanvas freshId nowIso).id =
      pc.id ∧
    (canvasTurn (some pc) false resultText resultCanvas freshId nowIso).title =
      pc.title := by
  intro pc resultText resultCanvas freshId nowIso hc ht hi
  refine ⟨?_, ?_, ?_⟩ <;> simp [canvasTurn, hc, ht, hi]

/-- Claim C8, witness: appending chunk `"Y"` to a prior canvas with content
`"X"` yields content `"X\n\nY"` with id and title unchanged. -/
theorem c8_witness :
    (canvasTurn (some ⟨"old-id", "T", "X", "t"⟩) false "Y" none "f" "t0").content =
      "X\n\nY" ∧
    (canvasTurn (some ⟨"old-id", "T", "X", "t"⟩) false "Y" none "f" "t0").id =
      "old-id" ∧
    (canvasTurn (some ⟨"old-id", "T", "X", "t"⟩) false "Y" none "f" "t0").title =
      "T" := by
  have h := c8_claim ⟨"old-id", "T", "X", "t"⟩ "Y" none "f" "t0"
    (by decide) (by decide) (by decide)
  exact ⟨by rw [h.1]; decide, h.2.1, h.2.2⟩

/-! ## Claim C9 -/

/-- Claim C9: for input longer than the budget 12000, `truncateForModel`
returns the last 12000 characters of the input prefixed with the length
notice — so the output's final 12000 characters equal the input's final
12000 characters and the output length is the notice length plus 12000,
in particular at most 12000 plus the notice length; input of length at
most 12000 is returned unchanged. -/
theorem c9_claim : ∀ s : String,
    (12000 < s.length →
      truncateForModel s 12000 =
        truncNotice s ++ sliceFrom s (s.length - 12000) ∧
      sliceFrom (truncateForModel s 12000)
          ((truncateForModel s 12000).length - 12000) =
        sliceFrom s (s.length - 12000) ∧
      (truncateForModel s 12000).length = (truncNotice s).length + 12000 ∧
      (truncateForModel s 12000).length ≤ 12000 + (truncNotice s).length) ∧
    (s.length ≤ 12000 → truncateForModel s 12000 = s) := by
  intro s
  constructor
  · intro hlen
    have hne : s ≠ "" := by
      intro h
      rw [h] at hlen
      simp [String.length] at hlen
    have heq : truncateForModel s 12000 =
        truncNotice s ++ sliceFrom s (s.length - 12000) := by
      unfold truncateForModel
      rw [if_neg hne, if_neg (by omega)]
    have hslice : (sliceFrom s (s.length - 12000)).length = 12000 := by
      simp only [sliceFrom, String.length_mk, List.length_drop]
      have : s.length = s.data.length := rfl
      omega
    have hout : (truncateForModel s 12000).length =
        (truncNotice s).length + 12000 := by
      rw [heq, String.length_append, hslice]
    refine ⟨heq, ?_, hout, by omega⟩
    rw [heq]
    have hlen2 : (truncNotice s ++ sliceFrom s (s.length - 12000)).length - 12000 =
        (truncNotice s).data.length := by
      rw [String.length_append, hslice]
      have : (truncNotice s).length = (truncNotice s).data.length := rfl
      omega
    rw [hlen2]
    unfold sliceFrom
    rw [String.data_append, List.drop_left]
  · intro hlen
    unfold truncateForModel
    by_cases hne : s = ""
    · rw [if_pos hne, hne]
    · rw [if_neg hne, if_pos hlen]

/-- Claim C9, witness: a 12001-character input is truncated to the notice
plus its last 12000 characters, and a short input is returned unchanged. -/
theorem c9_witness :
    (12000 < (String.mk (List.replicate 12001 'a')).length ∧
      (truncateForModel (String.mk (List.replicate 12001 'a')) 12000).length ≤
        12000 + (truncNotice (String.mk (List.replicate 12001 'a'))).length) ∧
    ("hello".length ≤ 12000 ∧ truncateForModel "hello" 12000 = "hello") := by
  have h1 : 12000 < (String.mk (List.replicate 12001 'a')).length := by
    show 12000 < (List.replicate 12001 'a').length
    rw [List.length_replicate]
    omega
  have h2 : ("hello" : String).length ≤ 12000 := by decide
  exact ⟨⟨h1, ((c9_claim _).1 h1).2.2.2⟩, ⟨h2, (c9_claim "hello").2 h2⟩⟩

/-! ## Claim C6 -/

/-- Invariant of the retry loop from any starting attempt: at most
`retries - attempt` further delays (hence retries) happen, and the `j`-th
delay slept is the backoff formula at attempt `attempt + j`, which is only
slept when that attempt's outcome was classified retryable. -/
theorem fetchLoop_spec (fetchFn : Nat → AttemptResult) (cfg : RetryCfg) :
    ∀ attempt : Nat,
      (fetchLoop fetchFn cfg attempt).2.length ≤ cfg.retries - attempt ∧
      (∀ j, j < (fetchLoop fetchFn cfg attempt).2.length →
        (fetchLoop fetchFn cfg attempt).2[j]? =
          some (backoffDelay cfg (attempt + j)) ∧
        retryableOutcome (fetchFn (attempt + j)) = true) := by
  intro attempt
  induction attempt using fetchLoop.induct fetchFn cfg with
  | case1 x a h1 h2 ih =>
      have hx : fetchLoop fetchFn cfg x =
          ((fetchLoop fetchFn cfg (x + 1)).1,
            backoffDelay cfg x :: (fetchLoop fetchFn cfg (x + 1)).2) := by
        rw [fetchLoop]
        rw [h1]
        simp [h2]
      rw [hx]
      simp only [Bool.and_eq_true, decide_eq_true_eq] at h2
      constructor
      · have := ih.1
        simp only [List.length_cons]
        omega
      · intro j hj
        match j with
        | 0 =>
            refine ⟨by simp, ?_⟩
            rw [Nat.add_zero, h1]
            simp [retryableOutcome, h2.1]
        | k + 1 =>
            simp only [List.length_cons] at hj
            have hk := ih.2 k (by omega)
            have harith : x + (k + 1) = x + 1 + k := by omega
            rw [harith]
            simpa using hk
  | case2 x a h1 h2 =>
      have hx : fetchLoop fetchFn cfg x = (.ok a, []) := by
        rw [fetchLoop]
        rw [h1]
        simp [h2]
      rw [hx]
      simp
  | case3 x a h1 h2 ih =>
      have hx : fetchLoop fetchFn cfg x =
          ((fetchLoop fetchFn cfg (x + 1)).1,
            backoffDelay cfg x :: (fetchLoop fetchFn cfg (x + 1)).2) := by
        rw [fetchLoop]
        rw [h1]
        simp [h2]
      rw [hx]
      simp only [Bool.and_eq_true, decide_eq_true_eq] at h2
      constructor
      · have := ih.1
        simp only [List.length_cons]
        omega
      · intro j hj
        match j with
        | 0 =>
            refine ⟨by simp, ?_⟩
            rw [Nat.add_zero, h1]
            simp [retryableOutcome, h2.2]
        | k + 1 =>
            simp only [List.length_cons] at hj
            have hk := ih.2 k (by omega)
            have harith : x + (k + 1) = x + 1 + k := by omega
            rw [harith]
            simpa using hk
  | case4 x a h1 h2 =>
      have hx : fetchLoop fetchFn cfg x = (.error a, []) := by
        rw [fetchLoop]
        rw [h1]
        simp [h2]
      rw [hx]
      simp

/-- Claim C6: the transport makes at most `retries + 1` attempts (the
number of slept delays is at most `retries`); a first attempt with a
non-retryable status (such as 404) is returned immediately with no retry;
the status classifier accepts exactly 429 and the 5xx range; the delay
before the retry of attempt number `j` is
`min maxDelayMs (baseDelayMs * 2 ^ j)`; a delay is only slept after an
attempt whose outcome was classified retryable; and the 500, 500, 200
scenario under the default policy makes exactly 3 attempts, sleeps delays
600 and 1200, and returns the final success. -/
theorem c6_claim :
    (∀ fetchFn cfg, (fetchWithRetry fetchFn cfg).2.length ≤ cfg.retries) ∧
    (∀ fetchFn cfg s, fetchFn 0 = .resp s → isRetryableStatus s = false →
        fetchWithRetry fetchFn cfg = (.ok s, [])) ∧
    (∀ s, isRetryableStatus s = true ↔ (s = 429 ∨ (500 ≤ s ∧ s ≤ 599))) ∧
    (∀ fetchFn cfg j, j < (fetchWithRetry fetchFn cfg).2.length →
        (fetchWithRetry fetchFn cfg).2[j]? =
          some (min cfg.maxDelayMs (cfg.baseDelayMs * 2 ^ j)) ∧
        retryableOutcome (fetchFn j) = true) ∧
    fetchWithRetry
        (fun n => if n = 0 then .resp 500 else if n = 1 then .resp 500 else .resp 200)
        ⟨60000, 2, 600, 2500⟩ = (.ok 200, [600, 1200]) := by
  refine ⟨?_, ?_, ?_, ?_, ?_⟩
  · intro fetchFn cfg
    have h := (fetchLoop_spec fetchFn cfg 0).1
    simpa [fetchWithRetry] using h
  · intro fetchFn cfg s h hs
    unfold fetchWithRetry
    rw [fetchLoop]
    rw [h]
    simp [hs]
  · intro s
    simp [isRetryableStatus]
  · intro fetchFn cfg j hj
    have h := (fetchLoop_spec fetchFn cfg 0).2 j (by simpa [fetchWithRetry] using hj)
    simpa [fetchWithRetry, backoffDelay] using h
  · simp [fetchWithRetry, fetchLoop, isRetryableStatus, backoffDelay]

/-- Claim C6, witness: a 404 on the first attempt is returned immediately
with no retries. -/
theorem c6_witness :
    fetchWithRetry (fun _ => .resp 404) ⟨60000, 2, 600, 2500⟩ =
      (.ok 404, []) :=
  c6_claim.2.1 (fun _ => .resp 404) ⟨60000, 2, 600, 2500⟩ 404 rfl (by decide)

/-! ## Claim C3 -/

/-- The quota invariant relating the entry state to an `.ok` result of the
extractor: the counters only grow, by at least the ghost-expanded amounts,
and whenever anything was expanded the starting counter plus the expanded
amount is within the corresponding quota. -/
def quotaInv (st st' : ZipState) (c b : Nat) : Prop :=
  st.files + c ≤ st'.files ∧ st.bytes + b ≤ st'.bytes ∧
  (c = 0 ∨ st.files + c ≤ MAX_ZIP_FILES) ∧
  (b = 0 ∨ st.bytes + b ≤ MAX_ZIP_TOTAL_BYTES)

/-- The quota invariant holds of every successful extractor run, from any
starting state, for both the node analyzer and the entries loop. -/
theorem analyze_quota_inv :
    (∀ (node : FileNode) (depth : Nat) (st : ZipState), ∀ out' st' c b,
        analyzeFileBuffer node depth st = .ok (out', st', c, b) →
        quotaInv st st' c b) ∧
    (∀ (entries : List FileNode) (depth : Nat) (st : ZipState) (out : String),
        ∀ out' st' c b,
        analyzeZipEntries entries depth st out = .ok (out', st', c, b) →
        quotaInv st st' c b) := by
  refine analyzeFileBuffer.mutual_induct
    (fun node depth st => ∀ out' st' c b,
      analyzeFileBuffer node depth st = .ok (out', st', c, b) → quotaInv st st' c b)
    (fun entries depth st out => ∀ out' st' c b,
      analyzeZipEntries entries depth st out = .ok (out', st', c, b) →
        quotaInv st st' c b)
    ?_ ?_ ?_ ?_ ?_ ?_ ?_ ?_ ?_ ?_ ?_ ?_ ?_ ?_ ?_ ?_ ?_ ?_
  -- depth > 3
  · intro t depth st hd out' st' c b h
    rw [analyzeFileBuffer.eq_def] at h
    rw [if_pos hd] at h
    simp at h
    obtain ⟨-, h2, h3⟩ := h
    subst h2
    obtain ⟨rfl, rfl⟩ : c = 0 ∧ b = 0 := by
      simpa [Prod.ext_iff, eq_comm] using h3
    simp [quotaInv]
  -- zip
  · intro depth st hd n size entries IH out' st' c b h
    simp [analyzeFileBuffer, hd] at h
    exact IH out' st' c b h
  -- badZip
  · intro depth st hd n size errMsg out' st' c b h
    simp [analyzeFileBuffer, hd] at h
  -- textFile
  · intro depth st hd n size content out' st' c b h
    simp [analyzeFileBuffer, hd] at h
    obtain ⟨-, h2, h3⟩ := h
    subst h2
    obtain ⟨rfl, rfl⟩ : c = 0 ∧ b = 0 := by
      simpa [Prod.ext_iff, eq_comm] using h3
    simp [quotaInv]
  -- pdfFile ok
  · intro depth st hd n size t out' st' c b h
    simp [analyzeFileBuffer, hd] at h
    obtain ⟨-, h2, h3⟩ := h
    subst h2
    obtain ⟨rfl, rfl⟩ : c = 0 ∧ b = 0 := by
      simpa [Prod.ext_iff, eq_comm] using h3
    simp [quotaInv]
  -- pdfFile error
  · intro depth st hd n size e out' st' c b h
    simp [analyzeFileBuffer, hd] at h
  -- xlsxFile ok
  · intro depth st hd n size t out' st' c b h
    simp [analyzeFileBuffer, hd] at h
    obtain ⟨-, h2, h3⟩ := h
    subst h2
    obtain ⟨rfl, rfl⟩ : c = 0 ∧ b = 0 := by
      simpa [Prod.ext_iff, eq_comm] using h3
    simp [quotaInv]
  -- xlsxFile error
  · intro depth st hd n size e out' st' c b h
    simp [analyzeFileBuffer, hd] at h
  -- imageFile ok
  · intro depth st hd n size t out' st' c b h
    simp [analyzeFileBuffer, hd] at h
    obtain ⟨-, h2, h3⟩ := h
    subst h2
    obtain ⟨rfl, rfl⟩ : c = 0 ∧ b = 0 := by
      simpa [Prod.ext_iff, eq_comm] using h3
    simp [quotaInv]
  -- imageFile error
  · intro depth st hd n size e out' st' c b h
    simp [analyzeFileBuffer, hd] at h
    obtain ⟨-, h2, h3⟩ := h
    subst h2
    obtain ⟨rfl, rfl⟩ : c = 0 ∧ b = 0 := by
      simpa [Prod.ext_iff, eq_comm] using h3
    simp [quotaInv]
  -- otherFile some
  · intro depth st hd n size t out' st' c b h
    simp [analyzeFileBuffer, hd] at h
    obtain ⟨-, h2, h3⟩ := h
    subst h2
    obtain ⟨rfl, rfl⟩ : c = 0 ∧ b = 0 := by
      simpa [Prod.ext_iff, eq_comm] using h3
    simp [quotaInv]
  -- otherFile none
  · intro depth st hd n size out' st' c b h
    simp [analyzeFileBuffer, hd] at h
    obtain ⟨-, h2, h3⟩ := h
    subst h2
    obtain ⟨rfl, rfl⟩ : c = 0 ∧ b = 0 := by
      simpa [Prod.ext_iff, eq_comm] using h3
    simp [quotaInv]
  -- entries []
  · intro depth st out out' st' c b h
    simp [analyzeZipEntries] at h
    obtain ⟨-, h2, h3⟩ := h
    subst h2
    obtain ⟨rfl, rfl⟩ : c = 0 ∧ b = 0 := by
      simpa [Prod.ext_iff, eq_comm] using h3
    simp [quotaInv]
  -- entries cons, file-count quota crossed
  · intro depth st out f rest st1 hfiles out' st' c b h
    have hf : st.files + 1 > MAX_ZIP_FILES := hfiles
    simp [analyzeZipEntries, hf] at h
    obtain ⟨-, h2, h3⟩ := h
    subst h2
    obtain ⟨rfl, rfl⟩ : c = 0 ∧ b = 0 := by
      simpa [Prod.ext_iff, eq_comm] using h3
    simp [quotaInv]
  -- entries cons, byte quota crossed
  · intro depth st out f rest st1 hfiles st2 hbytes out' st' c b h
    have hf : ¬ st.files + 1 > MAX_ZIP_FILES := hfiles
    have hb : st.bytes + f.size > MAX_ZIP_TOTAL_BYTES := hbytes
    simp [analyzeZipEntries, hf, hb] at h
    obtain ⟨-, h2, h3⟩ := h
    subst h2
    obtain ⟨rfl, rfl⟩ : c = 0 ∧ b = 0 := by
      simpa [Prod.ext_iff, eq_comm] using h3
    simp [quotaInv]
  -- entries cons, child analysis fails
  · intro depth st out f rest st1 hfiles st2 hbytes e herr IH1 out' st' c b h
    have hf : ¬ st.files + 1 > MAX_ZIP_FILES := hfiles
    have hb : ¬ st.bytes + f.size > MAX_ZIP_TOTAL_BYTES := hbytes
    have herr2 : analyzeFileBuffer f (depth + 1)
        ⟨st.files + 1, st.bytes + f.size⟩ = .error e := herr
    simp [analyzeZipEntries, hf, hb, herr2] at h
  -- entries cons, rest of loop fails
  · intro depth st out f rest st1 hfiles st2 hbytes subOut stA c1 b1 hsub e
      hrest IH1 IH2 out' st' c b h
    have hf : ¬ st.files + 1 > MAX_ZIP_FILES := hfiles
    have hb : ¬ st.bytes + f.size > MAX_ZIP_TOTAL_BYTES := hbytes
    have hsub2 : analyzeFileBuffer f (depth + 1)
        ⟨st.files + 1, st.bytes + f.size⟩ = .ok (subOut, stA, c1, b1) := hsub
    have hrest2 : analyzeZipEntries rest depth stA
        (out ++ "\n---\n[" ++ f.name ++ "]\n" ++ subOut) = .error e := hrest
    simp [analyzeZipEntries, hf, hb, hsub2, hrest2] at h
  -- entries cons, child and rest both succeed
  · intro depth st out f rest st1 hfiles st2 hbytes subOut stA c1 b1 hsub
      restOut stB c2 b2 hrest IH1 IH2 out' st' c b h
    have hf : ¬ st.files + 1 > MAX_ZIP_FILES := hfiles
    have hb : ¬ st.bytes + f.size > MAX_ZIP_TOTAL_BYTES := hbytes
    have hsub2 : analyzeFileBuffer f (depth + 1)
        ⟨st.files + 1, st.bytes + f.size⟩ = .ok (subOut, stA, c1, b1) := hsub
    have hrest2 : analyzeZipEntries rest depth stA
        (out ++ "\n---\n[" ++ f.name ++ "]\n" ++ subOut) =
          .ok (restOut, stB, c2, b2) := hrest
    simp [analyzeZipEntries, hf, hb, hsub2, hrest2] at h
    obtain ⟨-, h2, h3, h4⟩ := h
    subst h2; subst h3; subst h4
    have I1 : quotaInv ⟨st.files + 1, st.bytes + f.size⟩ stA c1 b1 :=
      IH1 subOut stA c1 b1 hsub2
    have I2 : quotaInv stA stB c2 b2 := IH2 _ _ _ _ hrest2
    simp only [quotaInv] at I1 I2 ⊢
    obtain ⟨I1a, I1b, I1c, I1d⟩ := I1
    obtain ⟨I2a, I2b, I2c, I2d⟩ := I2
    simp only [not_lt] at hf hb
    refine ⟨by omega, by omega, ?_, ?_⟩
    · rcases I1c with I1c | I1c <;> rcases I2c with I2c | I2c <;> omega
    · rcases I1d with I1d | I1d <;> rcases I2d with I2d | I2d <;> omega

/-- Claim C3: over any archive tree, a completed extraction run started
from the fresh quota state expands at most 200 entries and at most 20 MiB
of expanded entry bytes, regardless of nesting depth; and crossing either
quota in the entries loop appends the corresponding diagnostic note to the
already-accumulated text and stops that branch with a successful (never
failing) result. -/
theorem c3_claim :
    (∀ (node : FileNode) (out' : String) (st' : ZipState) (c b : Nat),
        analyzeFileBuffer node 0 ⟨0, 0⟩ = .ok (out', st', c, b) →
        c ≤ MAX_ZIP_FILES ∧ b ≤ MAX_ZIP_TOTAL_BYTES) ∧
    (∀ (f : FileNode) (rest : List FileNode) (depth : Nat) (st : ZipState)
        (out : String), st.files + 1 > MAX_ZIP_FILES →
        analyzeZipEntries (f :: rest) depth st out =
          .ok (out ++ zipFilesDiag, ⟨st.files + 1, st.bytes⟩, 0, 0)) ∧
    (∀ (f : FileNode) (rest : List FileNode) (depth : Nat) (st : ZipState)
        (out : String), st.files + 1 ≤ MAX_ZIP_FILES →
        st.bytes + f.size > MAX_ZIP_TOTAL_BYTES →
        analyzeZipEntries (f :: rest) depth st out =
          .ok (out ++ zipBytesDiag, ⟨st.files + 1, st.bytes + f.size⟩, 0, 0)) := by
  refine ⟨?_, ?_, ?_⟩
  · intro node out' st' c b h
    have hinv := analyze_quota_inv.1 node 0 ⟨0, 0⟩ out' st' c b h
    simp only [quotaInv] at hinv
    obtain ⟨-, -, hc, hb⟩ := hinv
    constructor
    · rcases hc with hc | hc <;> omega
    · rcases hb with hb | hb <;> omega
  · intro f rest depth st out hcross
    rw [analyzeZipEntries.eq_def]
    simp [hcross]
  · intro f rest depth st out hfs hcross
    rw [analyzeZipEntries.eq_def]
    have hfs2 : ¬ st.files + 1 > MAX_ZIP_FILES := by omega
    simp [hfs2, hcross]

/-- Claim C3, witness: a concrete small archive run stays within both
quotas, and a loop state already at the entry quota produces the
diagnostic-and-stop success. -/
theorem c3_witness :
    (0 ≤ MAX_ZIP_FILES ∧ 0 ≤ MAX_ZIP_TOTAL_BYTES) ∧
    analyzeZipEntries [.textFile "x.txt" 3 "abc"] 0 ⟨200, 0⟩ "A" =
      .ok ("A" ++ zipFilesDiag, ⟨201, 0⟩, 0, 0) ∧
    analyzeZipEntries [.textFile "x.txt" 30000000 "abc"] 0 ⟨0, 0⟩ "A" =
      .ok ("A" ++ zipBytesDiag, ⟨1, 30000000⟩, 0, 0) := by
  refine ⟨?_, ?_, ?_⟩
  · exact c3_claim.1 (.textFile "a.txt" 1 "x")
      ("\n[文本文件: a.txt]\nx\n") ⟨0, 0⟩ 0 0 (by simp [analyzeFileBuffer])
  · exact c3_claim.2.1 (.textFile "x.txt" 3 "abc") [] 0 ⟨200, 0⟩ "A"
      (by simp [MAX_ZIP_FILES])
  · exact c3_claim.2.2 (.textFile "x.txt" 30000000 "abc") [] 0 ⟨0, 0⟩ "A"
      (by simp [MAX_ZIP_FILES]) (by simp [FileNode.size, MAX_ZIP_TOTAL_BYTES])

/-! ## Claim C4 -/

/-- Claim C4, counterexample to the claim as stated: a PDF entry whose
parse throws is not caught anywhere in `analyzeFileBuffer`; the extraction
call itself fails with the exception instead of returning text. -/
theorem c4_counterexample :
    analyzeFileBuffer (.pdfFile "report.pdf" 10 (.error "Invalid PDF structure"))
        0 ⟨0, 0⟩ = .error "Invalid PDF structure" := by
  simp [analyzeFileBuffer]

/-- Claim C4 (amended): only the image-vision branch and the final
binary-decode fallback convert per-entry failures into inline diagnostic
strings inside the returned text; failures of PDF parsing, spreadsheet
parsing, or opening a malformed nested archive are not caught and propagate
out of the extraction call as exceptions, also from inside an archive. -/
theorem c4_claim :
    (∀ (name : String) (sz : Nat) (e : String) (depth : Nat) (st : ZipState),
        depth ≤ 3 →
        analyzeFileBuffer (.imageFile name sz (.error e)) depth st =
          .ok ("\n[图片文件: " ++ name ++ "]\n[图片解析失败：" ++ e ++ "]\n",
            st, 0, 0)) ∧
    (∀ (name : String) (sz : Nat) (depth : Nat) (st : ZipState), depth ≤ 3 →
        analyzeFileBuffer (.otherFile name sz none) depth st =
          .ok ("\n[文件: " ++ name ++ "]\n[二进制内容，未解析]\n", st, 0, 0)) ∧
    (∀ (name : String) (sz : Nat) (e : String) (depth : Nat) (st : ZipState),
        depth ≤ 3 →
        analyzeFileBuffer (.pdfFile name sz (.error e)) depth st = .error e) ∧
    (∀ (name : String) (sz : Nat) (e : String) (depth : Nat) (st : ZipState),
        depth ≤ 3 →
        analyzeFileBuffer (.xlsxFile name sz (.error e)) depth st = .error e) ∧
    (∀ (name : String) (sz : Nat) (e : String) (depth : Nat) (st : ZipState),
        depth ≤ 3 →
        analyzeFileBuffer (.badZip name sz e) depth st = .error e) ∧
    analyzeFileBuffer
        (.zip "a.zip" 20 [.pdfFile "b.pdf" 5 (.error "bad pdf")]) 0 ⟨0, 0⟩ =
      .error "bad pdf" := by
  refine ⟨?_, ?_, ?_, ?_, ?_, ?_⟩
  · intro name sz e depth st hd
    have hd2 : ¬ depth > 3 := by omega
    simp [analyzeFileBuffer, hd2]
  · intro name sz depth st hd
    have hd2 : ¬ depth > 3 := by omega
    simp [analyzeFileBuffer, hd2]
  · intro name sz e depth st hd
    have hd2 : ¬ depth > 3 := by omega
    simp [analyzeFileBuffer, hd2]
  · intro name sz e depth st hd
    have hd2 : ¬ depth > 3 := by omega
    simp [analyzeFileBuffer, hd2]
  · intro name sz e depth st hd
    have hd2 : ¬ depth > 3 := by omega
    simp [analyzeFileBuffer, hd2]
  · simp [analyzeFileBuffer, analyzeZipEntries, MAX_ZIP_FILES,
      MAX_ZIP_TOTAL_BYTES, FileNode.size]

/-- Claim C4, witness: a failed vision call on an image entry yields the
inline diagnostic text and a successful result. -/
theorem c4_witness :
    analyzeFileBuffer (.imageFile "p.png" 5 (.error "no api key")) 0 ⟨0, 0⟩ =
      .ok ("\n[图片文件: p.png]\n[图片解析失败：no api key]\n", ⟨0, 0⟩, 0, 0) :=
  c4_claim.1 "p.png" 5 "no api key" 0 ⟨0, 0⟩ (by omega)

end AiChat
